import Mathlib

/-!
Verification of the Slack reminder bot (two source variants:
`src/server.js`, the original, and `src/unnamed/part_000`, the corrected
rewrite).  Both variants are shallowly embedded below: Slack strings are
Lean `String`s, the Postgres `tasks` table is a list of rows in natural
row order, and the parameterized SQL queries are modelled as Lean
functions on that list.  Handlers are pure functions from their inputs
(form snapshot, store behaviour) to the option list they acknowledge
with, plus trace-producing variants that record the order of
acknowledgments, store accesses and outward messages.
-/

namespace ReminderBot

/-! ### JS string primitives -/

/-- `s.slice(0, n)` / truncation of a string to its first `n` characters. -/
def strTake (s : String) (n : Nat) : String :=
  ⟨s.data.take n⟩

theorem length_strTake (s : String) (n : Nat) :
    (strTake s n).length = min n s.length := by
  show (s.data.take n).length = min n s.data.length
  simp

/-- JS truthiness of a possibly-absent string: `undefined`, `null` and the
empty string are falsy, every other string is truthy. -/
def truthyStr : Option String → Bool
  | none => false
  | some s => !(s == "")

/-- Decimal digits of a natural number, most significant first; empty for 0.
Used to model the JS `String(number)` decimal rendering. -/
def natDigits : Nat → List Char
  | 0 => []
  | n+1 => natDigits ((n+1) / 10) ++ [Nat.digitChar ((n+1) % 10)]
decreasing_by exact Nat.div_lt_self (Nat.succ_pos n) (by decide)

/-- The decimal rendering `String(n)` of a nonnegative JS number. -/
def jsString (n : Nat) : String :=
  if n = 0 then "0" else ⟨natDigits n⟩

/-- Value of a list of decimal digit characters, most significant first. -/
def digitsVal (l : List Char) : Nat :=
  l.foldl (fun acc c => 10 * acc + (c.toNat - 48)) 0

theorem digitsVal_append_singleton (l : List Char) (c : Char) :
    digitsVal (l ++ [c]) = 10 * digitsVal l + (c.toNat - 48) := by
  simp [digitsVal, List.foldl_append]

theorem digitChar_val {r : Nat} (h : r < 10) :
    (Nat.digitChar r).toNat - 48 = r := by
  interval_cases r <;> rfl

theorem digitsVal_natDigits : ∀ n, digitsVal (natDigits n) = n := by
  intro n
  induction n using Nat.strong_induction_on with
  | _ n ih =>
    match n with
    | 0 => rw [natDigits]; rfl
    | m+1 =>
      rw [natDigits, digitsVal_append_singleton,
        ih ((m+1) / 10) (Nat.div_lt_self (Nat.succ_pos m) (by decide)),
        digitChar_val (Nat.mod_lt _ (by decide))]
      exact Nat.div_add_mod (m+1) 10

/-- Parsing back the decimal rendering recovers the number. -/
theorem digitsVal_jsString (n : Nat) : digitsVal (jsString n).data = n := by
  by_cases h : n = 0
  · subst h; rfl
  · simp only [jsString, if_neg h]
    exact digitsVal_natDigits n

theorem jsString_injective : Function.Injective jsString := by
  intro a b h
  have := congrArg (fun s => digitsVal s.data) h
  simpa [digitsVal_jsString] using this

/-! ### Task rows and the store queries

The `tasks` table: `id` is the serial primary key, `user_id` the owner,
`task_text` the description, `due_date` a `DATE` rendered as its ISO
`YYYY-MM-DD` string (both variants format dates with
`toISOString().slice(0,10)` / `String(...)`, and lexicographic order on
those strings agrees with date order).  Columns `created_by`,
`channel_id`, `created_at` never influence the handlers and are omitted.
The list order of a table models the store's natural row order. -/

structure TaskRow where
  id : Nat
  user_id : String
  task_text : String
  due_date : String
  completed : Bool
deriving Repr, DecidableEq

/-- Comparison used by `ORDER BY due_date ASC`. -/
def dueLE (a b : TaskRow) : Prop :=
  a.due_date ≤ b.due_date

instance : DecidableRel dueLE :=
  fun a b => inferInstanceAs (Decidable (a.due_date ≤ b.due_date))

instance : IsTotal TaskRow dueLE :=
  ⟨fun a b => le_total a.due_date b.due_date⟩

instance : IsTrans TaskRow dueLE :=
  ⟨fun _ _ _ hab hbc => le_trans hab hbc⟩

/-- The rows matching `WHERE user_id = $1 AND completed = false`, in
natural row order. -/
def openTasks (table : List TaskRow) (uid : String) : List TaskRow :=
  table.filter (fun r => r.user_id == uid && r.completed == false)

/-- `SELECT id, task_text, due_date FROM tasks WHERE user_id=$1 AND
completed = false ORDER BY due_date ASC LIMIT 50`, modelled with a stable
sort (ties keep natural row order) followed by the row cap. -/
def sqlSelectOpenTasks (table : List TaskRow) (uid : String) : List TaskRow :=
  (List.insertionSort dueLE (openTasks table uid)).take 50

/-- Whether a string parses as a Postgres integer literal (the `id = $1`
comparison casts the text parameter; a non-numeric token such as
`no_user` makes the query raise `invalid input syntax for type integer`). -/
def pgIntLexeme (s : String) : Bool :=
  !(s == "") && s.data.all Char.isDigit

/-- `SELECT * FROM tasks WHERE id = $1` with a text parameter: fails on a
non-numeric parameter, otherwise returns the row with that id, if any. -/
def fetchTaskById (table : List TaskRow) (idStr : String) :
    Except String (Option TaskRow) :=
  if pgIntLexeme idStr then
    Except.ok (table.find? (fun r => jsString r.id == idStr))
  else
    Except.error "invalid input syntax for type integer"

/-! ### Form snapshots

A form snapshot (`body.view.state.values`) is a mapping from block id to
a mapping from action id to a field-value object; JS `for...in` visits
keys in insertion order, so both mappings are association lists.  A
field-value object carries a `type` discriminant and kind-specific
payloads, any of which may be absent (`none`), which also covers `null`
or otherwise malformed payloads: every guard in the source tests them
for truthiness before use. -/

structure FieldValue where
  type : Option String := none
  selected_user : Option String := none
  /-- the `value` of `selected_option`, when one is selected -/
  selected_option : Option String := none
  value : Option String := none
deriving Repr, DecidableEq

abbrev Block := List (String × FieldValue)

abbrev SnapshotValues := List (String × Block)

structure ViewState where
  values : Option SnapshotValues
deriving Repr, DecidableEq

structure View where
  state : Option ViewState
deriving Repr, DecidableEq

/-- The part of the options-request `body` the handlers read. -/
structure OptionsBody where
  view : Option View
deriving Repr, DecidableEq

/-- Does this field hold a users-select with a (truthy) selection?
Mirrors `val && val.type === 'users_select' && val.selected_user`. -/
def isUserSelection (v : FieldValue) : Bool :=
  v.type == some "users_select" && truthyStr v.selected_user

/-- Inner loop of the extractor: first users-select selection in a block. -/
def blockFirstUser : Block → Option String
  | [] => none
  | (_, v) :: rest =>
    if isUserSelection v then v.selected_user else blockFirstUser rest

/-- Outer loop of the extractor: first users-select selection over all
blocks (the source breaks out of both loops at the first hit). -/
def valuesFirstUser : SnapshotValues → Option String
  | [] => none
  | (_, blk) :: rest =>
    match blockFirstUser blk with
    | some u => some u
    | none => valuesFirstUser rest

/-- `src/unnamed/part_000` lines 183-198: guarded walk down
`body.view.state.values`, then the two nested loops. -/
def findSelectedUser_part000 (body : OptionsBody) : Option String :=
  match body.view with
  | none => none
  | some v =>
    match v.state with
    | none => none
    | some st =>
      match st.values with
      | none => none
      | some vs => valuesFirstUser vs

/-- `src/server.js` lines 164-177: guards only `body.view && body.view.state`;
iterating `for...in` over an undefined `values` performs zero iterations,
which lands in the same `none` as the explicit guard of the other
variant. -/
def findSelectedUser_server (body : OptionsBody) : Option String :=
  match body.view with
  | none => none
  | some v =>
    match v.state with
    | none => none
    | some st =>
      match st.values with
      | none => none
      | some vs => valuesFirstUser vs

/-! ### Option lists -/

/-- A `(plain_text label, value)` pair acknowledged to Slack. -/
structure SlackOption where
  text : String
  value : String
deriving Repr, DecidableEq

/-- `src/server.js` line 192-193: the whole label (text, em-dash suffix and
date) is built first and then `slice(0,75)`-d; no ellipsis marker. -/
def serverLabel (r : TaskRow) : String :=
  strTake (r.task_text ++ " — due " ++ r.due_date) 75

def serverOption (r : TaskRow) : SlackOption :=
  ⟨serverLabel r, jsString r.id⟩

/-- `src/unnamed/part_000` lines 227-229: the text alone is truncated to
its first 72 characters plus `...` when it exceeds 75 characters, and the
date suffix is appended afterwards with no overall cap. -/
def part000Label (r : TaskRow) : String :=
  (if r.task_text.length > 75
    then strTake r.task_text 72 ++ "..."
    else r.task_text) ++ " — due " ++ r.due_date

def part000Option (r : TaskRow) : SlackOption :=
  ⟨part000Label r, jsString r.id⟩

/-- `src/server.js` `app.options('task_select')` as a pure function from
the request body and the store's behaviour to the acknowledged options. -/
def taskSelect_server (body : OptionsBody)
    (store : String → Except String (List TaskRow)) : List SlackOption :=
  match findSelectedUser_server body with
  | none => [⟨"Pick a user first", "no_user"⟩]
  | some u =>
    match store u with
    | Except.error _ => [⟨"Error loading tasks", "err"⟩]
    | Except.ok rows =>
      let optionsList := rows.map serverOption
      if optionsList.length = 0 then
        [⟨"No tasks for that user", "no_tasks"⟩]
      else
        optionsList

/-- `src/unnamed/part_000` `app.options('task_select')` as a pure
function (the empty-result check here is on `res.rowCount`, before the
mapping). -/
def taskSelect_part000 (body : OptionsBody)
    (store : String → Except String (List TaskRow)) : List SlackOption :=
  match findSelectedUser_part000 body with
  | none => [⟨"Please select a user first", "no_user"⟩]
  | some u =>
    match store u with
    | Except.error _ => [⟨"Error loading tasks", "err"⟩]
    | Except.ok rows =>
      if rows.length = 0 then
        [⟨"No tasks found for that user", "no_tasks"⟩]
      else
        rows.map part000Option

/-! ### Handler traces

Each handler is also rendered as the ordered list of externally visible
actions it performs: acknowledgments, store accesses, outward messages
and error logs.  This captures the dispatcher contract (how many
acknowledgments, and what precedes them). -/

inductive Event where
  | ackEmpty : Event
  | ackOptions : List SlackOption → Event
  | openModal : String → Event
  | storeQuery : String → String → Event
  | storeInsert : String → String → String → Event
  | postMessage : String → String → Event
  | postEphemeral : String → String → String → Event
  | logError : String → Event
deriving Repr, DecidableEq

def Event.isAck : Event → Bool
  | Event.ackEmpty => true
  | Event.ackOptions _ => true
  | _ => false

def Event.isDispatch : Event → Bool
  | Event.postMessage _ _ => true
  | _ => false

def Event.isStoreAccess : Event → Bool
  | Event.storeQuery _ _ => true
  | Event.storeInsert _ _ _ => true
  | _ => false

/-- Texts of the ephemeral (private) messages of a trace, in order. -/
def ephemeralTexts : List Event → List String
  | [] => []
  | Event.postEphemeral _ _ t :: rest => t :: ephemeralTexts rest
  | _ :: rest => ephemeralTexts rest

/-- `/addtask` command handler: acknowledge, then open the modal. -/
def addtaskCommand : List Event :=
  [Event.ackEmpty, Event.openModal "add_task_view"]

/-- `/reminduser` command handler: acknowledge, then open the modal. -/
def reminduserCommand : List Event :=
  [Event.ackEmpty, Event.openModal "send_reminder_view"]

/-- `view.state.values?.<blockId>?.<actionId>` with optional chaining. -/
def lookupField (vs : SnapshotValues) (blockId actionId : String) :
    Option FieldValue :=
  match vs.lookup blockId with
  | none => none
  | some blk => blk.lookup actionId

/-- `view.state.values?.task_block?.task_input?.value || ''` -/
def addTaskText (vs : SnapshotValues) : String :=
  ((lookupField vs "task_block" "task_input").bind FieldValue.value).getD ""

/-- `view.state.values?.date_block?.date_input?.value || ''` -/
def addTaskDate (vs : SnapshotValues) : String :=
  ((lookupField vs "date_block" "date_input").bind FieldValue.value).getD ""

/-- The regular expression `^\d{4}-\d{2}-\d{2}$` — a purely lexical test,
no calendar-semantic validation. -/
def isDateLexeme (s : String) : Bool :=
  match s.data with
  | [a, b, c, d, e, f, g, h, i, j] =>
    a.isDigit && b.isDigit && c.isDigit && d.isDigit && e == '-' &&
    f.isDigit && g.isDigit && h == '-' && i.isDigit && j.isDigit
  | _ => false

/-- `src/unnamed/part_000` `app.view('add_task_view')` lines 89-124:
acknowledge; reject when the text is empty (`!taskText`, no trimming) or
the date fails the lexical pattern; otherwise insert and confirm, with a
caught insert failure degrading to an ephemeral server-error notice. -/
def addTaskView_part000 (user : String) (vs : SnapshotValues)
    (dbInsert : Except String Unit) : List Event :=
  let taskText := addTaskText vs
  let dueDateRaw := addTaskDate vs
  Event.ackEmpty ::
    (if taskText == "" || !(isDateLexeme dueDateRaw) then
      [Event.postEphemeral user user
        "Task not saved. Ensure you provided a task and date in YYYY-MM-DD format."]
    else
      Event.storeInsert user taskText dueDateRaw ::
        (match dbInsert with
        | Except.ok _ =>
          [Event.postMessage user
            ("✅ Your task was saved:\n*" ++ taskText ++ "*\nDue: " ++ dueDateRaw)]
        | Except.error e =>
          [Event.logError e,
           Event.postEphemeral user user "Failed to save task (server error)."]))

/-- `view.state.values?.user_select_block?.user_select?.selected_user` -/
def reminderUserSelected (vs : SnapshotValues) : Option String :=
  (lookupField vs "user_select_block" "user_select").bind FieldValue.selected_user

/-- `taskOption ? taskOption.value : null` for
`view.state.values?.task_select_block?.task_select?.selected_option`. -/
def reminderTaskId (vs : SnapshotValues) : Option String :=
  (lookupField vs "task_select_block" "task_select").bind FieldValue.selected_option

/-- `view.state.values?.custom_message_block?.custom_message.value || ''` -/
def reminderCustomMsg (vs : SnapshotValues) : String :=
  ((lookupField vs "custom_message_block" "custom_message").bind FieldValue.value).getD ""

/-- `src/unnamed/part_000` `app.view('send_reminder_view')` lines 245-282:
acknowledge; reject when either selection is falsy; otherwise fetch the
task by id (the sentinel values reach this query and make it fail) and
either dispatch the reminder plus a confirmation, report not-found, or
report a caught server error. -/
def sendReminderView_part000 (ceo : String) (vs : SnapshotValues)
    (table : List TaskRow) : List Event :=
  let userSelected := reminderUserSelected vs
  let taskId := reminderTaskId vs
  let customMsg := reminderCustomMsg vs
  Event.ackEmpty ::
    (if !(truthyStr userSelected) || !(truthyStr taskId) then
      [Event.postEphemeral ceo ceo "Please select both a user and a task."]
    else
      let tid := taskId.getD ""
      Event.storeQuery "select_task_by_id" tid ::
        (match fetchTaskById table tid with
        | Except.error e =>
          [Event.logError e,
           Event.postEphemeral ceo ceo "Failed to send reminder (server error)."]
        | Except.ok none =>
          [Event.postEphemeral ceo ceo "Task not found (may have been deleted)."]
        | Except.ok (some task) =>
          [Event.postMessage (userSelected.getD "")
            ("🔔 *Reminder* about your task:\n*" ++ task.task_text ++ "*\nDue: "
              ++ task.due_date ++ "\n\n" ++ customMsg),
           Event.postEphemeral ceo ceo
            ("Reminder sent to <@" ++ userSelected.getD "" ++ "> for task id "
              ++ tid ++ ".")]))

/-- Trace of `src/unnamed/part_000` `app.options('task_select')`: the
acknowledgment carries the options, so it follows the store query. -/
def taskSelectTrace_part000 (body : OptionsBody)
    (store : String → Except String (List TaskRow)) : List Event :=
  match findSelectedUser_part000 body with
  | none => [Event.ackOptions [⟨"Please select a user first", "no_user"⟩]]
  | some u =>
    Event.storeQuery "select_open_tasks" u ::
      (match store u with
      | Except.error e =>
        [Event.logError e, Event.ackOptions [⟨"Error loading tasks", "err"⟩]]
      | Except.ok rows =>
        if rows.length = 0 then
          [Event.ackOptions [⟨"No tasks found for that user", "no_tasks"⟩]]
        else
          [Event.ackOptions (rows.map part000Option)])

/-- Trace of `src/server.js` `app.options('task_select')`. -/
def taskSelectTrace_server (body : OptionsBody)
    (store : String → Except String (List TaskRow)) : List Event :=
  match findSelectedUser_server body with
  | none => [Event.ackOptions [⟨"Pick a user first", "no_user"⟩]]
  | some u =>
    Event.storeQuery "select_open_tasks" u ::
      (match store u with
      | Except.error e =>
        [Event.logError e, Event.ackOptions [⟨"Error loading tasks", "err"⟩]]
      | Except.ok rows =>
        let optionsList := rows.map serverOption
        if optionsList.length = 0 then
          [Event.ackOptions [⟨"No tasks for that user", "no_tasks"⟩]]
        else
          [Event.ackOptions optionsList])

/-! ### Startup configuration -/

structure Env where
  slack_bot_token : Option String
  slack_signing_secret : Option String
  database_url : Option String
  port : Option String
deriving Repr, DecidableEq

/-- Startup outcomes: `exited` is an exit before the listener ever
accepts traffic; `serving` is a process that came up and stays up;
`servingThenExited` is a process whose listener started accepting
traffic and that exited afterwards. -/
inductive BootOutcome where
  | exited : Nat → BootOutcome
  | serving : BootOutcome
  | servingThenExited : Nat → BootOutcome
deriving Repr, DecidableEq

/-- `src/unnamed/part_000` lines 7-14, 50-53 and 290-292: missing (or
empty, JS-falsy) required env vars are reported and the process exits
with status 1 synchronously, before any client is constructed or the
listener starts.  The table initialization is asynchronous: its
`.catch` calls `process.exit(1)`, but `receiver.app.listen` has already
been invoked during module load by the time a failed `initDB` promise
can reject, so that exit happens only after the listener began
accepting traffic. -/
def boot_part000 (e : Env) (dbInit : Except String Unit) :
    BootOutcome × List Event :=
  if !(truthyStr e.slack_bot_token) || !(truthyStr e.slack_signing_secret)
      || !(truthyStr e.database_url) then
    (BootOutcome.exited 1,
     [Event.logError "Missing required environment variables. Set SLACK_BOT_TOKEN, SLACK_SIGNING_SECRET and DATABASE_URL."])
  else
    match dbInit with
    | Except.ok _ => (BootOutcome.serving, [])
    | Except.error err => (BootOutcome.servingThenExited 1, [Event.logError err])

/-- `src/server.js` lines 6-40 and 250-253: the env values are read with
no explicit presence check.  If `SLACK_BOT_TOKEN` is absent, line 14's
`new App({ token: undefined, receiver })` throws Bolt's
`AppInitializationError` (no token, authorize function or OAuth options)
during module load, and the uncaught exception exits the process
non-zero before `app.start` — that library error path is part of this
model.  The signing secret is only used per request by the receiver's
verification middleware and the `pg` pool connects lazily, so neither is
checked at construction time; a failed table initialization is caught
and only logged (`initDB().catch(err => console.error('DB init error',
err))`), after which the process keeps serving. -/
def boot_server (e : Env) (dbInit : Except String Unit) :
    BootOutcome × List Event :=
  match e.slack_bot_token with
  | none => (BootOutcome.exited 1, [])
  | some _ =>
    (BootOutcome.serving,
     match dbInit with
     | Except.ok _ => []
     | Except.error err => [Event.logError err])

/-! ### Shared lemmas -/

/-- The two variants extract the selected user identically (the explicit
`values` guard of `part_000` and the zero-iteration `for...in` of
`server.js` coincide). -/
theorem findSelectedUser_eq :
    findSelectedUser_server = findSelectedUser_part000 :=
  rfl

theorem not_dueLE {a b : TaskRow} (h : ¬ dueLE a b) :
    b.due_date < a.due_date :=
  lt_of_not_le h

/-- Inserting a row into a list leaves the subsequence of any fixed due
date either untouched or extended at the front by the inserted row:
`orderedInsert` only skips past rows with a strictly smaller due date. -/
theorem filter_due_orderedInsert (d : String) (a : TaskRow) (l : List TaskRow) :
    (List.orderedInsert dueLE a l).filter (fun r => r.due_date == d) =
      if a.due_date == d then
        a :: l.filter (fun r => r.due_date == d)
      else
        l.filter (fun r => r.due_date == d) := by
  induction l with
  | nil =>
    by_cases had : a.due_date == d <;>
      simp [List.orderedInsert, List.filter_cons, had]
  | cons b t ih =>
    by_cases hab : dueLE a b
    · rw [List.orderedInsert, if_pos hab]
      by_cases had : a.due_date == d <;>
        simp [List.filter_cons, had]
    · rw [List.orderedInsert, if_neg hab]
      have hblt : b.due_date < a.due_date := not_dueLE hab
      by_cases had : a.due_date == d
      · have hbd : (b.due_date == d) = false := by
          have : a.due_date = d := by simpa using had
          simp only [beq_eq_false_iff_ne, ne_eq]
          intro hbd
          rw [hbd, this] at hblt
          exact lt_irrefl _ hblt
        simp [List.filter_cons, hbd, ih, had]
      · simp [List.filter_cons, ih, had]

/-- Stability of the `ORDER BY due_date ASC` model: rows with equal due
dates keep the store's natural row order. -/
theorem filter_due_insertionSort (d : String) (l : List TaskRow) :
    (List.insertionSort dueLE l).filter (fun r => r.due_date == d) =
      l.filter (fun r => r.due_date == d) := by
  induction l with
  | nil => rfl
  | cons a t ih =>
    rw [List.insertionSort, filter_due_orderedInsert]
    by_cases had : a.due_date == d <;>
      simp [List.filter_cons, had, ih]

theorem length_sqlSelectOpenTasks (table : List TaskRow) (uid : String) :
    (sqlSelectOpenTasks table uid).length = min 50 (openTasks table uid).length := by
  rw [sqlSelectOpenTasks, List.length_take, List.length_insertionSort]

theorem sorted_sqlSelectOpenTasks (table : List TaskRow) (uid : String) :
    List.Sorted dueLE (sqlSelectOpenTasks table uid) :=
  (List.sorted_insertionSort dueLE (openTasks table uid)).sublist
    (List.take_sublist 50 _)

theorem mem_sqlSelectOpenTasks {table : List TaskRow} {uid : String}
    {r : TaskRow} (h : r ∈ sqlSelectOpenTasks table uid) : r ∈ table := by
  have h1 : r ∈ List.insertionSort dueLE (openTasks table uid) :=
    (List.take_sublist 50 _).subset h
  have h2 : r ∈ openTasks table uid := (List.mem_insertionSort dueLE).1 h1
  exact (List.mem_filter.1 h2).1

/-- The em-dash due suffix has 7 characters. -/
theorem length_dueSuffix : (" — due " : String).length = 7 := by
  decide

theorem length_serverLabel (r : TaskRow) : (serverLabel r).length ≤ 75 := by
  rw [serverLabel, length_strTake]
  exact Nat.min_le_left _ _

theorem length_ellipsis : ("..." : String).length = 3 := by
  decide

theorem length_part000Label {r : TaskRow} (hdue : r.due_date.length = 10) :
    (part000Label r).length ≤ 92 := by
  rw [part000Label]
  by_cases h : r.task_text.length > 75 <;>
    simp only [h, if_pos, if_neg, ite_true, ite_false, String.length_append,
      length_strTake, length_dueSuffix, length_ellipsis, hdue] <;>
    omega

/-- Ids of the capped, sorted query result stay duplicate-free when the
table's ids are. -/
theorem nodup_sqlSelect_ids {table : List TaskRow} {uid : String}
    (hids : ((openTasks table uid).map TaskRow.id).Nodup) :
    ((sqlSelectOpenTasks table uid).map (fun r => jsString r.id)).Nodup := by
  have hperm : List.Perm
      ((List.insertionSort dueLE (openTasks table uid)).map TaskRow.id)
      ((openTasks table uid).map TaskRow.id) :=
    (List.perm_insertionSort dueLE (openTasks table uid)).map TaskRow.id
  have hsorted : ((List.insertionSort dueLE (openTasks table uid)).map TaskRow.id).Nodup :=
    hperm.nodup_iff.2 hids
  have htake : ((sqlSelectOpenTasks table uid).map TaskRow.id).Nodup := by
    rw [sqlSelectOpenTasks, List.map_take]
    exact hsorted.sublist (List.take_sublist 50 _)
  have : (sqlSelectOpenTasks table uid).map (fun r => jsString r.id) =
      ((sqlSelectOpenTasks table uid).map TaskRow.id).map jsString := by
    rw [List.map_map]; rfl
  rw [this]
  exact htake.map jsString_injective

/-- Unfolding of the `part_000` options handler on the results branch. -/
theorem taskSelect_part000_results {body : OptionsBody} {uid : String}
    {store : String → Except String (List TaskRow)} {rows : List TaskRow}
    (hu : findSelectedUser_part000 body = some uid)
    (hs : store uid = Except.ok rows) (hne : rows.length ≠ 0) :
    taskSelect_part000 body store = rows.map part000Option := by
  rw [taskSelect_part000, hu]
  simp only [hs, if_neg hne]

/-- Unfolding of the `server.js` options handler on the results branch. -/
theorem taskSelect_server_results {body : OptionsBody} {uid : String}
    {store : String → Except String (List TaskRow)} {rows : List TaskRow}
    (hu : findSelectedUser_part000 body = some uid)
    (hs : store uid = Except.ok rows) (hne : rows.length ≠ 0) :
    taskSelect_server body store = rows.map serverOption := by
  have hu' : findSelectedUser_server body = some uid := by
    rw [findSelectedUser_eq]; exact hu
  rw [taskSelect_server, hu']
  have h2 : (rows.map serverOption).length ≠ 0 := by
    rw [List.length_map]; exact hne
  simp only [hs, if_neg h2]

/-! ### Claim theorems -/

/-- C1 (amended): for every resolved user with `N` open tasks, `N ≥ 1`,
both variants acknowledge exactly `min N 50` options; the underlying
query result is non-decreasing by due date with ties kept in store row
order (its per-due-date subsequences are prefixes of the unsorted
ones); option labels are at most 75 characters long in the `server.js`
variant but only at most 92 characters long in the `part_000` variant;
and the values are the pairwise-distinct decimal renderings of the
tasks' ids, in query order. -/
theorem C1_option_provider_results
    (table : List TaskRow) (uid : String) (body : OptionsBody)
    (hu : findSelectedUser_part000 body = some uid)
    (hids : ((openTasks table uid).map TaskRow.id).Nodup)
    (hdates : ∀ r ∈ table, r.due_date.length = 10)
    (hN : 1 ≤ (openTasks table uid).length) :
    (taskSelect_part000 body (fun v => Except.ok (sqlSelectOpenTasks table v))).length
        = min (openTasks table uid).length 50 ∧
    (taskSelect_server body (fun v => Except.ok (sqlSelectOpenTasks table v))).length
        = min (openTasks table uid).length 50 ∧
    List.Sorted dueLE (sqlSelectOpenTasks table uid) ∧
    (∀ d, (sqlSelectOpenTasks table uid).filter (fun r => r.due_date == d) <+:
      (openTasks table uid).filter (fun r => r.due_date == d)) ∧
    (∀ o ∈ taskSelect_server body (fun v => Except.ok (sqlSelectOpenTasks table v)),
      o.text.length ≤ 75) ∧
    (∀ o ∈ taskSelect_part000 body (fun v => Except.ok (sqlSelectOpenTasks table v)),
      o.text.length ≤ 92) ∧
    (taskSelect_part000 body (fun v => Except.ok (sqlSelectOpenTasks table v))).map
        SlackOption.value
      = (sqlSelectOpenTasks table uid).map (fun r => jsString r.id) ∧
    ((sqlSelectOpenTasks table uid).map (fun r => jsString r.id)).Nodup := by
  have hne : (sqlSelectOpenTasks table uid).length ≠ 0 := by
    rw [length_sqlSelectOpenTasks]
    omega
  have hp : taskSelect_part000 body (fun v => Except.ok (sqlSelectOpenTasks table v))
      = (sqlSelectOpenTasks table uid).map part000Option :=
    taskSelect_part000_results hu rfl hne
  have hsv : taskSelect_server body (fun v => Except.ok (sqlSelectOpenTasks table v))
      = (sqlSelectOpenTasks table uid).map serverOption :=
    taskSelect_server_results hu rfl hne
  refine ⟨?_, ?_, sorted_sqlSelectOpenTasks table uid, ?_, ?_, ?_, ?_,
    nodup_sqlSelect_ids hids⟩
  · rw [hp, List.length_map, length_sqlSelectOpenTasks, Nat.min_comm]
  · rw [hsv, List.length_map, length_sqlSelectOpenTasks, Nat.min_comm]
  · intro d
    have h1 : (sqlSelectOpenTasks table uid).filter (fun r => r.due_date == d) <+:
        (List.insertionSort dueLE (openTasks table uid)).filter
          (fun r => r.due_date == d) :=
      (List.take_prefix 50 _).filter _
    rwa [filter_due_insertionSort] at h1
  · intro o ho
    rw [hsv] at ho
    obtain ⟨r, _, rfl⟩ := List.mem_map.1 ho
    exact length_serverLabel r
  · intro o ho
    rw [hp] at ho
    obtain ⟨r, hr, rfl⟩ := List.mem_map.1 ho
    exact length_part000Label (hdates r (mem_sqlSelectOpenTasks hr))
  · rw [hp, List.map_map]
    rfl

/-- A snapshot whose only field is a users-select with user `U1` picked. -/
def bodyU1 : OptionsBody :=
  ⟨some ⟨some ⟨some [("user_select_block",
    [("user_select", ⟨some "users_select", some "U1", none, none⟩)])]⟩⟩⟩

/-- Two open tasks for `U1`, stored in reverse due-date order. -/
def tableTwo : List TaskRow :=
  [⟨1, "U1", "Write report", "2025-03-02", false⟩,
   ⟨2, "U1", "Ship build", "2025-03-01", false⟩]

/-- An 80-character task text. -/
def text80 : String :=
  "aaaaaaaaaaaaaaaaaaaaaaaaaaaaaaaaaaaaaaaaaaaaaaaaaaaaaaaaaaaaaaaaaaaaaaaaaaaaaa"

/-- A 73-character task text. -/
def text73 : String :=
  "aaaaaaaaaaaaaaaaaaaaaaaaaaaaaaaaaaaaaaaaaaaaaaaaaaaaaaaaaaaaaaaaaaaaaaaaa"

/-- C1 is false as stated: with one open task whose text has 80
characters, the single option acknowledged by the `part_000` variant has
a 92-character label, exceeding the claimed 75-character bound. -/
theorem C1_counterexample_label_length :
    (taskSelect_part000 bodyU1
        (fun v => Except.ok (sqlSelectOpenTasks
          [⟨1, "U1", text80, "2025-01-01", false⟩] v))).map
      (fun o => o.text.length) = [92] ∧ ¬ (92 ≤ 75) := by
  constructor
  · rfl
  · decide

/-- Witness for C1: all hypotheses hold at the concrete snapshot
`bodyU1` and store `tableTwo`, and the conclusion follows. -/
theorem C1_option_provider_results_witness :
    findSelectedUser_part000 bodyU1 = some "U1" ∧
    ((openTasks tableTwo "U1").map TaskRow.id).Nodup ∧
    (∀ r ∈ tableTwo, r.due_date.length = 10) ∧
    1 ≤ (openTasks tableTwo "U1").length ∧
    ((taskSelect_part000 bodyU1
        (fun v => Except.ok (sqlSelectOpenTasks tableTwo v))).length
        = min (openTasks tableTwo "U1").length 50 ∧
     (taskSelect_server bodyU1
        (fun v => Except.ok (sqlSelectOpenTasks tableTwo v))).length
        = min (openTasks tableTwo "U1").length 50 ∧
     List.Sorted dueLE (sqlSelectOpenTasks tableTwo "U1") ∧
     (∀ d, (sqlSelectOpenTasks tableTwo "U1").filter (fun r => r.due_date == d) <+:
       (openTasks tableTwo "U1").filter (fun r => r.due_date == d)) ∧
     (∀ o ∈ taskSelect_server bodyU1
        (fun v => Except.ok (sqlSelectOpenTasks tableTwo v)),
       o.text.length ≤ 75) ∧
     (∀ o ∈ taskSelect_part000 bodyU1
        (fun v => Except.ok (sqlSelectOpenTasks tableTwo v)),
       o.text.length ≤ 92) ∧
     (taskSelect_part000 bodyU1
        (fun v => Except.ok (sqlSelectOpenTasks tableTwo v))).map
         SlackOption.value
       = (sqlSelectOpenTasks tableTwo "U1").map (fun r => jsString r.id) ∧
     ((sqlSelectOpenTasks tableTwo "U1").map (fun r => jsString r.id)).Nodup) :=
  ⟨rfl, by decide, by decide, by decide,
    C1_option_provider_results tableTwo "U1" bodyU1 rfl (by decide) (by decide)
      (by decide)⟩

/-- C2 is false as stated: a 73-character task text exceeds 72
characters, yet the `part_000` label carries it untruncated and does not
consist of the first 72 characters followed by an ellipsis marker. -/
theorem C2_counterexample_73_char_text :
    text73.length = 73 ∧
    part000Label ⟨1, "U1", text73, "2025-01-01", false⟩
      = text73 ++ " — due " ++ "2025-01-01" ∧
    part000Label ⟨1, "U1", text73, "2025-01-01", false⟩
      ≠ strTake text73 72 ++ "..." ++ " — due " ++ "2025-01-01" :=
  ⟨by decide, rfl, by decide⟩

/-- C2 (amended): in `part_000` the truncation threshold is 75, not 72:
text longer than 75 characters is cut to its first 72 characters plus
the 3-character `...` marker (the label then still has 92 characters,
since the due suffix is appended after the cut); text of length at most
75 — including lengths 73 to 75 — appears untruncated with no marker.
The `server.js` variant instead slices the whole label to at most 75
characters and never appends an ellipsis. -/
theorem C2_truncation_rule (r : TaskRow) (hdue : r.due_date.length = 10) :
    (75 < r.task_text.length →
      part000Label r
        = strTake r.task_text 72 ++ "..." ++ " — due " ++ r.due_date ∧
      (part000Label r).length = 92) ∧
    (r.task_text.length ≤ 75 →
      part000Label r = r.task_text ++ " — due " ++ r.due_date) ∧
    (serverLabel r).length ≤ 75 := by
  refine ⟨?_, ?_, length_serverLabel r⟩
  · intro h
    constructor
    · rw [part000Label, if_pos h]
    · rw [part000Label, if_pos h]
      simp only [String.length_append, length_strTake, length_ellipsis,
        length_dueSuffix, hdue]
      omega
  · intro h
    have h2 : ¬ (75 < r.task_text.length) := by omega
    rw [part000Label, if_neg h2]

/-- Witness for C2 at a task with an 80-character text. -/
theorem C2_truncation_rule_witness :
    ("2025-01-01" : String).length = 10 ∧
    ((75 < text80.length →
      part000Label ⟨1, "U1", text80, "2025-01-01", false⟩
        = strTake text80 72 ++ "..." ++ " — due " ++ "2025-01-01" ∧
      (part000Label ⟨1, "U1", text80, "2025-01-01", false⟩).length = 92) ∧
    (text80.length ≤ 75 →
      part000Label ⟨1, "U1", text80, "2025-01-01", false⟩
        = text80 ++ " — due " ++ "2025-01-01") ∧
    (serverLabel ⟨1, "U1", text80, "2025-01-01", false⟩).length ≤ 75) :=
  ⟨by decide, C2_truncation_rule ⟨1, "U1", text80, "2025-01-01", false⟩ (by decide)⟩

/-- C10 is false as stated: on a snapshot with no selected user the two
variants acknowledge different labels for their `no_user` placeholder. -/
theorem C10_counterexample_placeholder_labels :
    taskSelect_server ⟨none⟩ (fun _ => Except.ok [])
      ≠ taskSelect_part000 ⟨none⟩ (fun _ => Except.ok []) := by
  decide

/-- C10 (amended): the two variants' option handlers agree on the number
of options and on the acknowledged values in order — they differ only in
label wording (placeholder texts and truncation policy). -/
theorem C10_option_handlers_value_equivalent (body : OptionsBody)
    (store : String → Except String (List TaskRow)) :
    (taskSelect_server body store).map SlackOption.value
      = (taskSelect_part000 body store).map SlackOption.value ∧
    (taskSelect_server body store).length
      = (taskSelect_part000 body store).length := by
  unfold taskSelect_server taskSelect_part000
  rw [findSelectedUser_eq]
  split
  · exact ⟨rfl, rfl⟩
  · split
    · exact ⟨rfl, rfl⟩
    · rename_i rows heq
      cases rows with
      | nil => exact ⟨rfl, rfl⟩
      | cons r t =>
        refine ⟨?_, ?_⟩ <;>
          simp [List.map_map, serverOption, part000Option]

/-- Witness for C10 at the resolved-user snapshot over the two-row
table. -/
theorem C10_option_handlers_value_equivalent_witness :
    (taskSelect_server bodyU1
        (fun v => Except.ok (sqlSelectOpenTasks tableTwo v))).map
      SlackOption.value
      = (taskSelect_part000 bodyU1
          (fun v => Except.ok (sqlSelectOpenTasks tableTwo v))).map
        SlackOption.value ∧
    (taskSelect_server bodyU1
        (fun v => Except.ok (sqlSelectOpenTasks tableTwo v))).length
      = (taskSelect_part000 bodyU1
          (fun v => Except.ok (sqlSelectOpenTasks tableTwo v))).length :=
  C10_option_handlers_value_equivalent bodyU1
    (fun v => Except.ok (sqlSelectOpenTasks tableTwo v))

/-- A block in which no field is a users-select carrying a (truthy)
selection yields nothing. -/
theorem blockFirstUser_eq_none {blk : Block}
    (h : ∀ p ∈ blk, isUserSelection p.2 = false) :
    blockFirstUser blk = none := by
  induction blk with
  | nil => rfl
  | cons p t ih =>
    obtain ⟨k, v⟩ := p
    have hv : isUserSelection v = false := h (k, v) (List.mem_cons_self _ _)
    rw [blockFirstUser, hv]
    simp only [Bool.false_eq_true, if_false]
    exact ih fun q hq => h q (List.mem_cons_of_mem _ hq)

/-- A snapshot in which no field is a users-select carrying a selection
yields nothing. -/
theorem valuesFirstUser_eq_none {vs : SnapshotValues}
    (h : ∀ b ∈ vs, ∀ p ∈ b.2, isUserSelection p.2 = false) :
    valuesFirstUser vs = none := by
  induction vs with
  | nil => rfl
  | cons b t ih =>
    obtain ⟨k, blk⟩ := b
    rw [valuesFirstUser, blockFirstUser_eq_none
      (h (k, blk) (List.mem_cons_self _ _))]
    exact ih fun q hq => h q (List.mem_cons_of_mem _ hq)

/-- C5 (confirmed): whenever no user-picker field of the snapshot carries
a non-empty selection — including bodies whose view, state, values or
payloads are missing, on which the extractor reports `none` without
erroring (totality of the embedding) — both variants acknowledge exactly
their one-element "pick a user first" placeholder with sentinel value
`no_user`. -/
theorem C5_no_user_placeholder (body : OptionsBody)
    (store : String → Except String (List TaskRow))
    (h : ∀ v st vs, body.view = some v → v.state = some st →
      st.values = some vs → ∀ b ∈ vs, ∀ p ∈ b.2, isUserSelection p.2 = false) :
    findSelectedUser_part000 body = none ∧
    taskSelect_part000 body store
      = [⟨"Please select a user first", "no_user"⟩] ∧
    taskSelect_server body store = [⟨"Pick a user first", "no_user"⟩] := by
  have hn : findSelectedUser_part000 body = none := by
    rw [findSelectedUser_part000]
    cases hv : body.view with
    | none => rfl
    | some v =>
      cases hst : v.state with
      | none => simp [hst]
      | some st =>
        cases hvs : st.values with
        | none => simp [hst, hvs]
        | some vs =>
          simp only [hst, hvs]
          exact valuesFirstUser_eq_none (h v st vs hv hst hvs)
  have hn' : findSelectedUser_server body = none := by
    rw [findSelectedUser_eq]; exact hn
  refine ⟨hn, ?_, ?_⟩
  · rw [taskSelect_part000, hn]
  · rw [taskSelect_server, hn']

/-- A malformed-and-unselected snapshot: a text field, plus a
users-select whose selection is the empty string (JS-falsy). -/
def vsUnselected : SnapshotValues :=
  [("task_block", [("task_input", ⟨some "plain_text_input", none, none, some "x"⟩)]),
   ("user_select_block", [("user_select", ⟨some "users_select", some "", none, none⟩)])]

/-- Witness for C5 at a concrete snapshot with an empty-string user
selection beside an unrelated text field. -/
theorem C5_no_user_placeholder_witness :
    findSelectedUser_part000 ⟨some ⟨some ⟨some vsUnselected⟩⟩⟩ = none ∧
    taskSelect_part000 ⟨some ⟨some ⟨some vsUnselected⟩⟩⟩ (fun _ => Except.ok [])
      = [⟨"Please select a user first", "no_user"⟩] ∧
    taskSelect_server ⟨some ⟨some ⟨some vsUnselected⟩⟩⟩ (fun _ => Except.ok [])
      = [⟨"Pick a user first", "no_user"⟩] :=
  C5_no_user_placeholder ⟨some ⟨some ⟨some vsUnselected⟩⟩⟩ (fun _ => Except.ok [])
    (by
      intro v st vs hv hst hvs
      cases hv
      cases hst
      cases hvs
      decide)

/-- C6 (confirmed): with a resolved user whose open-task query returns
zero rows, both variants acknowledge exactly their one-element "no
tasks" placeholder with sentinel value `no_tasks`. -/
theorem C6_no_tasks_placeholder (body : OptionsBody) (uid : String)
    (store : String → Except String (List TaskRow))
    (hu : findSelectedUser_part000 body = some uid)
    (hs : store uid = Except.ok []) :
    taskSelect_part000 body store
      = [⟨"No tasks found for that user", "no_tasks"⟩] ∧
    taskSelect_server body store
      = [⟨"No tasks for that user", "no_tasks"⟩] := by
  constructor
  · rw [taskSelect_part000, hu]
    simp [hs]
  · rw [taskSelect_server, findSelectedUser_eq, hu]
    simp [hs]

/-- A table whose only task for `U1` is already completed. -/
def tableCompleted : List TaskRow :=
  [⟨1, "U1", "Done already", "2025-01-01", true⟩]

/-- Witness for C6: the completed task is filtered out by the store
query, so the result set is empty. -/
theorem C6_no_tasks_placeholder_witness :
    findSelectedUser_part000 bodyU1 = some "U1" ∧
    sqlSelectOpenTasks tableCompleted "U1" = [] ∧
    taskSelect_part000 bodyU1
        (fun v => Except.ok (sqlSelectOpenTasks tableCompleted v))
      = [⟨"No tasks found for that user", "no_tasks"⟩] ∧
    taskSelect_server bodyU1
        (fun v => Except.ok (sqlSelectOpenTasks tableCompleted v))
      = [⟨"No tasks for that user", "no_tasks"⟩] :=
  ⟨rfl, by decide, C6_no_tasks_placeholder bodyU1 "U1" _ rfl
    (congrArg Except.ok
      (by decide : sqlSelectOpenTasks tableCompleted "U1" = []))⟩

/-- C7 (confirmed): when the store query fails, both variants
acknowledge exactly the one-element "Error loading tasks" placeholder
with sentinel value `err`; in the trace the failure is logged and the
acknowledgment is still issued exactly once (the failure is never
surfaced as a missing acknowledgment). -/
theorem C7_error_placeholder (body : OptionsBody) (uid msg : String)
    (store : String → Except String (List TaskRow))
    (hu : findSelectedUser_part000 body = some uid)
    (hs : store uid = Except.error msg) :
    taskSelect_part000 body store = [⟨"Error loading tasks", "err"⟩] ∧
    taskSelect_server body store = [⟨"Error loading tasks", "err"⟩] ∧
    taskSelectTrace_part000 body store
      = [Event.storeQuery "select_open_tasks" uid, Event.logError msg,
         Event.ackOptions [⟨"Error loading tasks", "err"⟩]] ∧
    (taskSelectTrace_part000 body store).countP Event.isAck = 1 := by
  have ht : taskSelectTrace_part000 body store
      = [Event.storeQuery "select_open_tasks" uid, Event.logError msg,
         Event.ackOptions [⟨"Error loading tasks", "err"⟩]] := by
    rw [taskSelectTrace_part000, hu]
    simp [hs]
  refine ⟨?_, ?_, ht, ?_⟩
  · rw [taskSelect_part000, hu]
    simp [hs]
  · rw [taskSelect_server, findSelectedUser_eq, hu]
    simp [hs]
  · rw [ht]
    rfl

/-- Witness for C7 with a failing store. -/
theorem C7_error_placeholder_witness :
    findSelectedUser_part000 bodyU1 = some "U1" ∧
    taskSelect_part000 bodyU1 (fun _ => Except.error "db down")
      = [⟨"Error loading tasks", "err"⟩] ∧
    taskSelect_server bodyU1 (fun _ => Except.error "db down")
      = [⟨"Error loading tasks", "err"⟩] ∧
    taskSelectTrace_part000 bodyU1 (fun _ => Except.error "db down")
      = [Event.storeQuery "select_open_tasks" "U1", Event.logError "db down",
         Event.ackOptions [⟨"Error loading tasks", "err"⟩]] ∧
    (taskSelectTrace_part000 bodyU1
      (fun _ => Except.error "db down")).countP Event.isAck = 1 :=
  ⟨rfl, C7_error_placeholder bodyU1 "U1" "db down" _ rfl rfl⟩

/-- The add-task submission handler acknowledges exactly once, first. -/
theorem addTaskView_ack (u : String) (vs : SnapshotValues)
    (d : Except String Unit) :
    (addTaskView_part000 u vs d).countP Event.isAck = 1 ∧
    (addTaskView_part000 u vs d).head? = some Event.ackEmpty := by
  constructor
  · simp only [addTaskView_part000]
    split
    · rfl
    · cases d <;> rfl
  · rfl

/-- The reminder submission handler acknowledges exactly once, first. -/
theorem sendReminderView_ack (ceo : String) (vs : SnapshotValues)
    (table : List TaskRow) :
    (sendReminderView_part000 ceo vs table).countP Event.isAck = 1 ∧
    (sendReminderView_part000 ceo vs table).head? = some Event.ackEmpty := by
  constructor
  · simp only [sendReminderView_part000]
    split
    · rfl
    · split <;> rfl
  · rfl

/-- The `part_000` options handler acknowledges exactly once. -/
theorem taskSelectTrace_part000_one_ack (body : OptionsBody)
    (store : String → Except String (List TaskRow)) :
    (taskSelectTrace_part000 body store).countP Event.isAck = 1 := by
  rw [taskSelectTrace_part000]
  split
  · rfl
  · split
    · rfl
    · split <;> rfl

/-- The `server.js` options handler acknowledges exactly once. -/
theorem taskSelectTrace_server_one_ack (body : OptionsBody)
    (store : String → Except String (List TaskRow)) :
    (taskSelectTrace_server body store).countP Event.isAck = 1 := by
  rw [taskSelectTrace_server]
  split
  · rfl
  · split
    · rfl
    · rename_i rows heq
      cases rows <;> rfl

/-- C8 is false as stated: on an option-refresh request with a resolved
user, the first action of the handler is the store query, not the
acknowledgment — the acknowledgment carries the query's results and can
only come after it. -/
theorem C8_counterexample_ack_not_first :
    (taskSelectTrace_part000 bodyU1
        (fun v => Except.ok (sqlSelectOpenTasks tableTwo v))).head?
      = some (Event.storeQuery "select_open_tasks" "U1") ∧
    Event.isAck (Event.storeQuery "select_open_tasks" "U1") = false := by
  constructor
  · rfl
  · rfl

/-- C8 (amended): every handler issues exactly one acknowledgment (never
zero, never two).  For command invocations and form submissions it is
the first action, before any store access or outward message; for
option-refresh requests with a resolved user the store query comes
first, because the single acknowledgment carries the options derived
from it. -/
theorem C8_single_ack_discipline (user ceo : String) (vs : SnapshotValues)
    (d : Except String Unit) (table : List TaskRow) (body : OptionsBody)
    (store : String → Except String (List TaskRow)) :
    addtaskCommand.countP Event.isAck = 1 ∧
    addtaskCommand.head? = some Event.ackEmpty ∧
    reminduserCommand.countP Event.isAck = 1 ∧
    reminduserCommand.head? = some Event.ackEmpty ∧
    (addTaskView_part000 user vs d).countP Event.isAck = 1 ∧
    (addTaskView_part000 user vs d).head? = some Event.ackEmpty ∧
    (sendReminderView_part000 ceo vs table).countP Event.isAck = 1 ∧
    (sendReminderView_part000 ceo vs table).head? = some Event.ackEmpty ∧
    (taskSelectTrace_part000 body store).countP Event.isAck = 1 ∧
    (taskSelectTrace_server body store).countP Event.isAck = 1 ∧
    (∀ u, findSelectedUser_part000 body = some u →
      (taskSelectTrace_part000 body store).head?
        = some (Event.storeQuery "select_open_tasks" u)) ∧
    (∀ u, findSelectedUser_server body = some u →
      (taskSelectTrace_server body store).head?
        = some (Event.storeQuery "select_open_tasks" u)) := by
  refine ⟨rfl, rfl, rfl, rfl, (addTaskView_ack user vs d).1,
    (addTaskView_ack user vs d).2, (sendReminderView_ack ceo vs table).1,
    (sendReminderView_ack ceo vs table).2,
    taskSelectTrace_part000_one_ack body store,
    taskSelectTrace_server_one_ack body store, ?_, ?_⟩
  · intro u hu
    rw [taskSelectTrace_part000, hu]
    rfl
  · intro u hu
    rw [taskSelectTrace_server, hu]
    rfl

/-- Witness for C8 at concrete inputs (resolved-user snapshot, two-row
table, successful insert). -/
theorem C8_single_ack_discipline_witness :
    addtaskCommand.countP Event.isAck = 1 ∧
    addtaskCommand.head? = some Event.ackEmpty ∧
    reminduserCommand.countP Event.isAck = 1 ∧
    reminduserCommand.head? = some Event.ackEmpty ∧
    (addTaskView_part000 "U1" vsUnselected (Except.ok ())).countP Event.isAck = 1 ∧
    (addTaskView_part000 "U1" vsUnselected (Except.ok ())).head?
      = some Event.ackEmpty ∧
    (sendReminderView_part000 "U0" vsUnselected tableTwo).countP Event.isAck = 1 ∧
    (sendReminderView_part000 "U0" vsUnselected tableTwo).head?
      = some Event.ackEmpty ∧
    (taskSelectTrace_part000 bodyU1
      (fun v => Except.ok (sqlSelectOpenTasks tableTwo v))).countP Event.isAck = 1 ∧
    (taskSelectTrace_server bodyU1
      (fun v => Except.ok (sqlSelectOpenTasks tableTwo v))).countP Event.isAck = 1 ∧
    (∀ u, findSelectedUser_part000 bodyU1 = some u →
      (taskSelectTrace_part000 bodyU1
        (fun v => Except.ok (sqlSelectOpenTasks tableTwo v))).head?
        = some (Event.storeQuery "select_open_tasks" u)) ∧
    (∀ u, findSelectedUser_server bodyU1 = some u →
      (taskSelectTrace_server bodyU1
        (fun v => Except.ok (sqlSelectOpenTasks tableTwo v))).head?
        = some (Event.storeQuery "select_open_tasks" u)) :=
  C8_single_ack_discipline "U1" "U0" vsUnselected (Except.ok ()) tableTwo bodyU1
    (fun v => Except.ok (sqlSelectOpenTasks tableTwo v))

/-- A reminder submission snapshot with a selected user and the reserved
sentinel `no_user` as task-selection value. -/
def vsSentinel : SnapshotValues :=
  [("user_select_block",
    [("user_select", ⟨some "users_select", some "U1", none, none⟩)]),
   ("task_select_block",
    [("task_select", ⟨some "external_select", none, some "no_user", none⟩)])]

/-- C3 is false as stated: on a submission whose task-selection value is
the sentinel `no_user`, the handler is not rejected by validation — it
reaches the store (a store access occurs) and the only private notice is
the generic server-error text, not one naming the missing fields.  (No
reminder is dispatched, as the claim says.) -/
theorem C3_counterexample_sentinel_reaches_store :
    (sendReminderView_part000 "U0" vsSentinel []).any Event.isStoreAccess = true ∧
    ephemeralTexts (sendReminderView_part000 "U0" vsSentinel [])
      = ["Failed to send reminder (server error)."] ∧
    "Please select both a user and a task."
      ∉ ephemeralTexts (sendReminderView_part000 "U0" vsSentinel []) ∧
    (sendReminderView_part000 "U0" vsSentinel []).all
      (fun e => !(Event.isDispatch e)) = true := by
  refine ⟨rfl, rfl, by decide, rfl⟩

/-- C3 (amended): a reminder submission with an absent (or JS-falsy)
user or task selection is rejected before any store access, with the
private notice naming the missing fields; a submission whose
task-selection value is one of the reserved sentinels `no_user`,
`no_tasks`, `err` passes that check, reaches the store — where the
non-numeric id makes the lookup fail — and yields no dispatch and only
the generic server-error private notice. -/
theorem C3_reminder_validation (ceo : String) (vs : SnapshotValues)
    (table : List TaskRow) :
    ((truthyStr (reminderUserSelected vs) = false ∨
        truthyStr (reminderTaskId vs) = false) →
      sendReminderView_part000 ceo vs table
        = [Event.ackEmpty,
           Event.postEphemeral ceo ceo "Please select both a user and a task."]) ∧
    (truthyStr (reminderUserSelected vs) = true →
      truthyStr (reminderTaskId vs) = true →
      (reminderTaskId vs).getD "" ∈ (["no_user", "no_tasks", "err"] : List String) →
      (∀ e ∈ sendReminderView_part000 ceo vs table, Event.isDispatch e = false) ∧
      ephemeralTexts (sendReminderView_part000 ceo vs table)
        = ["Failed to send reminder (server error)."]) := by
  constructor
  · intro h
    have hc : (!(truthyStr (reminderUserSelected vs))
        || !(truthyStr (reminderTaskId vs))) = true := by
      rcases h with h | h <;> simp [h]
    simp only [sendReminderView_part000, hc, if_true]
  · intro h1 h2 h3
    have hpg : pgIntLexeme ((reminderTaskId vs).getD "") = false := by
      simp only [List.mem_cons, List.not_mem_nil, or_false] at h3
      rcases h3 with h | h | h <;> rw [h] <;> decide
    have hf : fetchTaskById table ((reminderTaskId vs).getD "")
        = Except.error "invalid input syntax for type integer" := by
      rw [fetchTaskById, hpg]
      rfl
    have hc : (!(truthyStr (reminderUserSelected vs))
        || !(truthyStr (reminderTaskId vs))) = false := by
      simp [h1, h2]
    have ht : sendReminderView_part000 ceo vs table
        = [Event.ackEmpty,
           Event.storeQuery "select_task_by_id" ((reminderTaskId vs).getD ""),
           Event.logError "invalid input syntax for type integer",
           Event.postEphemeral ceo ceo "Failed to send reminder (server error)."] := by
      simp only [sendReminderView_part000, hc, Bool.false_eq_true, if_false, hf]
    constructor
    · intro e he
      rw [ht] at he
      simp only [List.mem_cons, List.not_mem_nil, or_false] at he
      rcases he with rfl | rfl | rfl | rfl <;> rfl
    · rw [ht]
      rfl

/-- Witness for C3: at the sentinel snapshot both selections are truthy
and the task value is reserved, so the no-dispatch and generic-notice
conclusions apply. -/
theorem C3_reminder_validation_witness :
    truthyStr (reminderUserSelected vsSentinel) = true ∧
    truthyStr (reminderTaskId vsSentinel) = true ∧
    (reminderTaskId vsSentinel).getD ""
      ∈ (["no_user", "no_tasks", "err"] : List String) ∧
    ((∀ e ∈ sendReminderView_part000 "U0" vsSentinel tableTwo,
        Event.isDispatch e = false) ∧
      ephemeralTexts (sendReminderView_part000 "U0" vsSentinel tableTwo)
        = ["Failed to send reminder (server error)."]) :=
  ⟨by decide, by decide, by decide,
    (C3_reminder_validation "U0" vsSentinel tableTwo).2
      (by decide) (by decide) (by decide)⟩

/-- A task-creation snapshot whose text is a single space (non-empty,
but empty after trimming) and whose date is lexically valid. -/
def vsWhitespace : SnapshotValues :=
  [("task_block",
    [("task_input", ⟨some "plain_text_input", none, none, some " "⟩)]),
   ("date_block",
    [("date_input", ⟨some "plain_text_input", none, none, some "2024-01-01"⟩)])]

/-- A task-creation snapshot with a calendar-invalid but lexically valid
date. -/
def vsCalendarInvalid : SnapshotValues :=
  [("task_block",
    [("task_input", ⟨some "plain_text_input", none, none, some "Ship report"⟩)]),
   ("date_block",
    [("date_input", ⟨some "plain_text_input", none, none, some "2024-13-40"⟩)])]

/-- C4 is false as stated: a whitespace-only task text (nonempty, but
consisting only of whitespace, hence empty after trimming) is accepted
by the `part_000` handler and the store write occurs (the code tests
`!taskText`, which only rejects the empty string — no trimming). -/
theorem C4_counterexample_whitespace_text :
    (" " : String) ≠ "" ∧
    (" " : String).data.all Char.isWhitespace = true ∧
    (addTaskView_part000 "U1" vsWhitespace (Except.ok ())).any
      Event.isStoreAccess = true ∧
    addTaskView_part000 "U1" vsWhitespace (Except.ok ())
      = [Event.ackEmpty, Event.storeInsert "U1" " " "2024-01-01",
         Event.postMessage "U1" "✅ Your task was saved:\n* *\nDue: 2024-01-01"] := by
  refine ⟨by decide, by decide, rfl, rfl⟩

/-- C4 (amended): a `part_000` task-creation submission is valid iff the
task text is non-empty as-is (no trimming: whitespace-only text passes)
and the date matches the lexical `\d{4}-\d{2}-\d{2}` pattern (so a
calendar-invalid date like `2024-13-40` is accepted); an invalid
submission performs no store write and produces exactly the one private,
non-persistent failure notice; a valid one performs the write. -/
theorem C4_addtask_validation (user : String) (vs : SnapshotValues)
    (d : Except String Unit) :
    ((addTaskText vs == "") = false → isDateLexeme (addTaskDate vs) = true →
      (addTaskView_part000 user vs d).any Event.isStoreAccess = true) ∧
    (((addTaskText vs == "") = true ∨ isDateLexeme (addTaskDate vs) = false) →
      (∀ e ∈ addTaskView_part000 user vs d, Event.isStoreAccess e = false) ∧
      ephemeralTexts (addTaskView_part000 user vs d)
        = ["Task not saved. Ensure you provided a task and date in YYYY-MM-DD format."]) := by
  constructor
  · intro h1 h2
    have hc : (addTaskText vs == "" || !(isDateLexeme (addTaskDate vs))) = false := by
      simp [h1, h2]
    simp only [addTaskView_part000, hc, Bool.false_eq_true, if_false]
    cases d <;> rfl
  · intro h
    have hc : (addTaskText vs == "" || !(isDateLexeme (addTaskDate vs))) = true := by
      rcases h with h | h <;> simp [h]
    have ht : addTaskView_part000 user vs d
        = [Event.ackEmpty, Event.postEphemeral user user
            "Task not saved. Ensure you provided a task and date in YYYY-MM-DD format."] := by
      simp only [addTaskView_part000, hc, if_true]
    constructor
    · intro e he
      rw [ht] at he
      simp only [List.mem_cons, List.not_mem_nil, or_false] at he
      rcases he with rfl | rfl <;> rfl
    · rw [ht]
      rfl

/-- Witness for C4: the calendar-invalid date `2024-13-40` passes the
lexical check and the write occurs (lexical-only policy). -/
theorem C4_addtask_validation_witness :
    (addTaskText vsCalendarInvalid == "") = false ∧
    isDateLexeme (addTaskDate vsCalendarInvalid) = true ∧
    isDateLexeme "2024-13-40" = true ∧
    (addTaskView_part000 "U1" vsCalendarInvalid (Except.ok ())).any
      Event.isStoreAccess = true :=
  ⟨by decide, by decide, by decide,
    (C4_addtask_validation "U1" vsCalendarInvalid (Except.ok ())).1
      (by decide) (by decide)⟩

/-- C9 is false as stated: with the bot token and signing secret present
but the store connection string absent — so nothing throws at module
load — the `server.js` variant comes up serving traffic; the failed
table initialization is caught and only logged, never turned into an
exit. -/
theorem C9_counterexample_server_boots_without_store :
    boot_server ⟨some "xoxb-1", some "secret", none, none⟩
        (Except.error "connection refused")
      = (BootOutcome.serving, [Event.logError "connection refused"]) := by
  rfl

/-- C9 (amended): the `part_000` variant exits with status 1 before the
listener starts when any of the three required configuration values is
absent (or empty, JS-falsy).  The `server.js` variant implements no such
check: an absent bot token still exits the process non-zero before
traffic, but only because the Bolt `App` constructor throws; with the
bot token and signing secret present, a missing store connection string
does not stop startup — the DB-init failure is only logged and the
process serves. -/
theorem C9_startup_config_check (e : Env) (d : Except String Unit)
    (h : truthyStr e.slack_bot_token = false ∨
      truthyStr e.slack_signing_secret = false ∨
      truthyStr e.database_url = false) :
    (boot_part000 e d).1 = BootOutcome.exited 1 ∧
    (∀ e2 d2, e2.slack_bot_token = none →
      (boot_server e2 d2).1 = BootOutcome.exited 1) ∧
    (∀ e2 d2, truthyStr e2.slack_bot_token = true →
      truthyStr e2.slack_signing_secret = true →
      (boot_server e2 d2).1 = BootOutcome.serving) := by
  refine ⟨?_, ?_, ?_⟩
  · have hc : (!(truthyStr e.slack_bot_token)
        || !(truthyStr e.slack_signing_secret)
        || !(truthyStr e.database_url)) = true := by
      rcases h with h | h | h <;> simp [h]
    simp only [boot_part000, hc, if_true]
  · intro e2 d2 htk
    simp only [boot_server, htk]
  · intro e2 d2 htk _
    cases hc : e2.slack_bot_token with
    | none => rw [hc] at htk; cases htk
    | some s => simp only [boot_server, hc]

/-- Witness for C9 with only the store connection string missing. -/
theorem C9_startup_config_check_witness :
    truthyStr (Env.mk (some "xoxb-1") (some "secret") none none).database_url
      = false ∧
    ((boot_part000 (Env.mk (some "xoxb-1") (some "secret") none none)
        (Except.ok ())).1 = BootOutcome.exited 1 ∧
      (∀ e2 d2, e2.slack_bot_token = none →
        (boot_server e2 d2).1 = BootOutcome.exited 1) ∧
      (∀ e2 d2, truthyStr e2.slack_bot_token = true →
        truthyStr e2.slack_signing_secret = true →
        (boot_server e2 d2).1 = BootOutcome.serving)) :=
  ⟨by decide,
    C9_startup_config_check (Env.mk (some "xoxb-1") (some "secret") none none)
      (Except.ok ()) (Or.inr (Or.inr (by decide)))⟩

end ReminderBot
